import Mathlib

/-
Shallow embedding of the bumert fluent assertion library for Go
(repository om81/bumert).

The library ships two variants of one surface:
  * the active (debug) variant, which inspects a captured value through
    reflection and panics on a failed check (namespace `Bumert` below);
  * the inert (release) variant, whose methods are no-ops returning the
    receiver (namespace `BumertRelease` below).

Modelling conventions:
  * Go `any` payloads are the inductive `GoValue`; `reflect.ValueOf` of an
    interface value never yields an Interface-kind `reflect.Value`, so the
    model carries the dynamic value directly and the `reflect.Interface`
    branch of `isNil` has no representative.
  * Go functions that can panic are embedded in `Except GoPanic _`; panics
    built by `failAssertion` use the `GoPanic.assertPanic` constructor and
    direct `panic(...)` calls (including panics raised inside the `reflect`
    package, such as `reflect.Value.Type` on the zero `Value`) use
    `GoPanic.rawPanic`.
  * float64 values are `GoFloat`: NaN, signed infinities, or a finite
    rational.  IEEE comparisons are modelled exactly (NaN compares false
    under every ordering operator and under equality).  The negative-zero
    bit pattern is conflated with zero, and integer-to-float64 widening is
    modelled exactly on rationals (real Go rounds magnitudes above 2^53);
    no claim below depends on either refinement.
  * `fmt` verb renderings (%#v, %T, %v) are abstracted by the flat total
    functions `fmtValue`/`fmtType`; the claims only constrain the fixed
    literal skeletons of the messages, which are reproduced verbatim.
  * The caller information produced by `runtime.Caller` is modelled by
    passing each predicate call its own call site (`CallSite`); the
    chain-entry `Should` takes no site, mirroring the fact that the
    diagnostic location is captured at the failing predicate call.
  * Values implementing the `error` interface are the `GoValue.errorV`
    constructor (pointer-to-struct implementations, the shape exercised by
    the repository); `errors.As` is abstracted as a walk down the wrap
    chain comparing concrete type names.
-/

set_option autoImplicit false

/-- Signed integer kinds of Go (`int`, `int8` ... `int64`). -/
inductive SIntKind where
  | i | i8 | i16 | i32 | i64
deriving DecidableEq

/-- Unsigned integer kinds of Go (`uint`, `uint8` ... `uint64`, `uintptr`). -/
inductive UIntKind where
  | u | u8 | u16 | u32 | u64 | uptr
deriving DecidableEq

/-- Floating point kinds of Go (`float32`, `float64`). -/
inductive FloatKind where
  | f32 | f64
deriving DecidableEq

/-- An IEEE floating point datum as observed by comparisons: NaN, an
infinity, or a finite value (modelled as a rational). -/
inductive GoFloat where
  | nan
  | finite (q : ℚ)
  | posInf
  | negInf
deriving DecidableEq

/-- A value implementing the `error` interface: a typed nil pointer, a leaf
error, or an error wrapping another one (`errors.Unwrap` chain). -/
inductive GoError where
  | nilPtrErr (tyName : String)
  | leafErr (tyName : String) (msg : String)
  | wrapErr (tyName : String) (msg : String) (inner : GoError)
deriving DecidableEq

/-- Concrete Go types, as compared by `reflect.Value.Type` equality. -/
inductive GoType where
  | invalidT
  | boolT
  | stringT
  | intT (k : SIntKind)
  | uintT (k : UIntKind)
  | floatT (k : FloatKind)
  | ptrT (t : GoType)
  | sliceT (t : GoType)
  | arrayT (n : Nat) (t : GoType)
  | mapT (kt vt : GoType)
  | chanT (t : GoType)
  | funcT (sig : Nat)
  | structT (n : String)
deriving DecidableEq

mutual
/-- The dynamic value held in a Go `any`.  `nilV` is the untyped nil
interface.  Typed nil slices, maps and pointers get their own
constructors so that recursion stays structural. -/
inductive GoValue where
  | nilV
  | boolV (b : Bool)
  | stringV (s : String)
  | intV (k : SIntKind) (n : Int)
  | uintV (k : UIntKind) (n : Nat)
  | floatV (k : FloatKind) (x : GoFloat)
  | ptrV (elem : GoType) (target : GoValue)
  | nilPtrV (elem : GoType)
  | sliceV (elem : GoType) (content : GoValueList)
  | nilSliceV (elem : GoType)
  | arrayV (elem : GoType) (content : GoValueList)
  | mapV (keyT valT : GoType) (content : GoPairList)
  | nilMapV (keyT valT : GoType)
  | chanV (elem : GoType) (handle : Option Nat) (buffered : Nat)
  | funcV (sig : Nat) (isNilFn : Bool)
  | structV (tyName : String) (fields : GoFieldList)
  | errorV (e : GoError)
/-- Slice/array element list. -/
inductive GoValueList where
  | nilL
  | consL (hd : GoValue) (tl : GoValueList)
/-- Map content as an association list (map iteration order abstracted). -/
inductive GoPairList where
  | nilP
  | consP (k v : GoValue) (tl : GoPairList)
/-- Struct fields in declaration order. -/
inductive GoFieldList where
  | nilF
  | consF (fname : String) (v : GoValue) (tl : GoFieldList)
end

deriving instance DecidableEq for GoValue, GoValueList, GoPairList, GoFieldList

/-- Number of elements of a `GoValueList`. -/
def lenL : GoValueList → Nat
  | GoValueList.nilL => 0
  | GoValueList.consL _ tl => lenL tl + 1

/-- Number of entries of a `GoPairList`. -/
def lenP : GoPairList → Nat
  | GoPairList.nilP => 0
  | GoPairList.consP _ _ tl => lenP tl + 1

/-- Concrete type name stored in a `GoError`. -/
def errTyName : GoError → String
  | GoError.nilPtrErr n => n
  | GoError.leafErr n _ => n
  | GoError.wrapErr n _ _ => n

/-- Rendered message of an error (`err.Error()`); typed nil receivers are
never asked for their message by the library. -/
def errMsg : GoError → String
  | GoError.nilPtrErr _ => ""
  | GoError.leafErr _ m => m
  | GoError.wrapErr _ m _ => m

/-- Kinds as classified by `reflect.Value.Kind`; the numeric kinds are
grouped per family since the source treats each family uniformly. -/
inductive GoKind where
  | invalidK | boolK | intK | uintK | floatK | stringK
  | ptrK | sliceK | arrayK | mapK | chanK | funcK | structK
deriving DecidableEq

/-- Kind of a captured value (`reflect.ValueOf(value).Kind()`; the untyped
nil interface yields the zero `reflect.Value`, of Invalid kind). -/
def goKind : GoValue → GoKind
  | GoValue.nilV => GoKind.invalidK
  | GoValue.boolV _ => GoKind.boolK
  | GoValue.stringV _ => GoKind.stringK
  | GoValue.intV _ _ => GoKind.intK
  | GoValue.uintV _ _ => GoKind.uintK
  | GoValue.floatV _ _ => GoKind.floatK
  | GoValue.ptrV _ _ => GoKind.ptrK
  | GoValue.nilPtrV _ => GoKind.ptrK
  | GoValue.sliceV _ _ => GoKind.sliceK
  | GoValue.nilSliceV _ => GoKind.sliceK
  | GoValue.arrayV _ _ => GoKind.arrayK
  | GoValue.mapV _ _ _ => GoKind.mapK
  | GoValue.nilMapV _ _ => GoKind.mapK
  | GoValue.chanV _ _ _ => GoKind.chanK
  | GoValue.funcV _ _ => GoKind.funcK
  | GoValue.structV _ _ => GoKind.structK
  | GoValue.errorV _ => GoKind.ptrK

/-- Concrete type of a captured value (`reflect.Value.Type`); errors are
pointer-to-struct implementations. -/
def goTypeOf : GoValue → GoType
  | GoValue.nilV => GoType.invalidT
  | GoValue.boolV _ => GoType.boolT
  | GoValue.stringV _ => GoType.stringT
  | GoValue.intV k _ => GoType.intT k
  | GoValue.uintV k _ => GoType.uintT k
  | GoValue.floatV k _ => GoType.floatT k
  | GoValue.ptrV t _ => GoType.ptrT t
  | GoValue.nilPtrV t => GoType.ptrT t
  | GoValue.sliceV t _ => GoType.sliceT t
  | GoValue.nilSliceV t => GoType.sliceT t
  | GoValue.arrayV t xs => GoType.arrayT (lenL xs) t
  | GoValue.mapV kt vt _ => GoType.mapT kt vt
  | GoValue.nilMapV kt vt => GoType.mapT kt vt
  | GoValue.chanV t _ _ => GoType.chanT t
  | GoValue.funcV sig _ => GoType.funcT sig
  | GoValue.structV n _ => GoType.ptrT (GoType.structT n)
  | GoValue.errorV e => GoType.ptrT (GoType.structT (errTyName e))

/-- True exactly for the untyped nil interface (the zero `reflect.Value`). -/
def isInvalidV : GoValue → Bool
  | GoValue.nilV => true
  | _ => false

/-- IEEE strict less-than: false whenever either operand is NaN. -/
def gfLt : GoFloat → GoFloat → Bool
  | GoFloat.nan, _ => false
  | _, GoFloat.nan => false
  | GoFloat.finite a, GoFloat.finite b => decide (a < b)
  | GoFloat.finite _, GoFloat.posInf => true
  | GoFloat.finite _, GoFloat.negInf => false
  | GoFloat.posInf, _ => false
  | GoFloat.negInf, GoFloat.negInf => false
  | GoFloat.negInf, _ => true

/-- IEEE equality: false whenever either operand is NaN. -/
def gfEq : GoFloat → GoFloat → Bool
  | GoFloat.finite a, GoFloat.finite b => decide (a = b)
  | GoFloat.posInf, GoFloat.posInf => true
  | GoFloat.negInf, GoFloat.negInf => true
  | _, _ => false

/-- Comparison operators used by the ordering predicates. -/
inductive CmpOp where
  | gt | lt | ge | le
deriving DecidableEq

/-- IEEE comparison for each operator. -/
def gfCmp : CmpOp → GoFloat → GoFloat → Bool
  | CmpOp.gt, a, b => gfLt b a
  | CmpOp.lt, a, b => gfLt a b
  | CmpOp.ge, a, b => gfLt b a || gfEq a b
  | CmpOp.le, a, b => gfLt a b || gfEq a b

/-- Machine comparison of two `int64` (or narrower) values. -/
def zcmp : CmpOp → Int → Int → Bool
  | CmpOp.gt, a, b => decide (b < a)
  | CmpOp.lt, a, b => decide (a < b)
  | CmpOp.ge, a, b => decide (b ≤ a)
  | CmpOp.le, a, b => decide (a ≤ b)

/-- Machine comparison of two `uint64` (or narrower) values. -/
def ncmp : CmpOp → Nat → Nat → Bool
  | CmpOp.gt, a, b => decide (b < a)
  | CmpOp.lt, a, b => decide (a < b)
  | CmpOp.ge, a, b => decide (b ≤ a)
  | CmpOp.le, a, b => decide (a ≤ b)

/-- Does the pattern list occur at the head of the text list?
Models the scan underlying `strings.HasPrefix`. -/
def hasPfxC : List Char → List Char → Bool
  | [], _ => true
  | _ :: _, [] => false
  | p :: ps, t :: ts => p == t && hasPfxC ps ts

/-- Does the pattern list occur anywhere in the text list?
Models `strings.Contains`. -/
def containsC : List Char → List Char → Bool
  | [], pat => pat.isEmpty
  | c :: ts, pat => hasPfxC pat (c :: ts) || containsC ts pat

/-- `strings.Contains s sub`. -/
def strContains (s sub : String) : Bool :=
  containsC s.toList sub.toList

/-- `strings.HasPrefix s pat`. -/
def strHasPfx (s pat : String) : Bool :=
  hasPfxC pat.toList s.toList

/-- `strings.HasSuffix s pat`. -/
def strHasSfx (s pat : String) : Bool :=
  hasPfxC pat.toList.reverse s.toList.reverse

/-- Source location of a predicate call, as recovered by `runtime.Caller`. -/
structure CallSite where
  file : String
  line : Nat
deriving DecidableEq

/-- A Go panic payload.  `assertPanic` payloads are built by
`failAssertion`; `rawPanic` payloads come from direct `panic(...)` calls
(including panics originating inside the `reflect` package). -/
inductive GoPanic where
  | assertPanic (payload : String)
  | rawPanic (payload : String)
deriving DecidableEq

namespace Bumert

/-- Flat abstraction of the `%T` rendering used in diagnostics; the claims
constrain only the fixed literal parts of messages, never this rendering. -/
def fmtType : GoValue → String
  | GoValue.nilV => "<nil>"
  | GoValue.boolV _ => "bool"
  | GoValue.stringV _ => "string"
  | GoValue.intV _ _ => "int"
  | GoValue.uintV _ _ => "uint"
  | GoValue.floatV _ _ => "float64"
  | GoValue.ptrV _ _ => "*T"
  | GoValue.nilPtrV _ => "*T"
  | GoValue.sliceV _ _ => "[]T"
  | GoValue.nilSliceV _ => "[]T"
  | GoValue.arrayV _ _ => "[N]T"
  | GoValue.mapV _ _ _ => "map[K]V"
  | GoValue.nilMapV _ _ => "map[K]V"
  | GoValue.chanV _ _ _ => "chan T"
  | GoValue.funcV _ _ => "func()"
  | GoValue.structV n _ => n
  | GoValue.errorV e => "*" ++ errTyName e

/-- Flat abstraction of the `%#v`/`%v` value rendering in diagnostics. -/
def fmtValue : GoValue → String
  | GoValue.nilV => "<nil>"
  | GoValue.boolV b => cond b "true" "false"
  | GoValue.stringV s => s
  | GoValue.intV _ n => toString n
  | GoValue.uintV _ n => toString n
  | GoValue.floatV _ _ => "float"
  | GoValue.ptrV _ _ => "ptr"
  | GoValue.nilPtrV _ => "ptr"
  | GoValue.sliceV _ _ => "slice"
  | GoValue.nilSliceV _ => "slice"
  | GoValue.arrayV _ _ => "array"
  | GoValue.mapV _ _ _ => "map"
  | GoValue.nilMapV _ _ => "map"
  | GoValue.chanV _ _ _ => "chan"
  | GoValue.funcV _ _ => "func"
  | GoValue.structV n _ => n
  | GoValue.errorV e => errMsg e

/-- Trim a path to its last segment, as `getCallerInfo` does with
`strings.LastIndex(file, "/")` followed by `file[lastSlash+1:]`. -/
def trimPath (file : String) : String :=
  String.mk ((file.toList.reverse.takeWhile (fun c => c ≠ '/')).reverse)

/-- `getCallerInfo`: the `"<file>:<line>"` prefix for the frame of the
failing predicate call (the caller of the assertion method). -/
def getCallerInfo (site : CallSite) : String :=
  trimPath site.file ++ ":" ++ toString site.line

/-- The string built by `failAssertion` before panicking. -/
def failAssertionMsg (site : CallSite) (msg : String) : String :=
  getCallerInfo site ++ ": assertion failed: " ++ msg

/-- The captured-value holder of the debug build (`Assertion` struct). -/
structure Assertion where
  value : GoValue
deriving DecidableEq

/-- Result of running one assertion method: the receiver, or a panic. -/
abbrev AResult := Except GoPanic Assertion

/-- `failAssertion`: format the message with caller info and panic. -/
def failAssertion (site : CallSite) (msg : String) : AResult :=
  Except.error (GoPanic.assertPanic (failAssertionMsg site msg))

/-- `Should` starts a fluent assertion chain (debug build). -/
def Should (value : GoValue) : Assertion :=
  { value := value }

/-- `isNil`: untyped nil, or a nilable-kind value whose handle is nil. -/
def isNil : GoValue → Bool
  | GoValue.nilV => true
  | GoValue.nilPtrV _ => true
  | GoValue.ptrV _ _ => false
  | GoValue.nilSliceV _ => true
  | GoValue.sliceV _ _ => false
  | GoValue.nilMapV _ _ => true
  | GoValue.mapV _ _ _ => false
  | GoValue.chanV _ h _ => h.isNone
  | GoValue.funcV _ isNilFn => isNilFn
  | GoValue.errorV (GoError.nilPtrErr _) => true
  | GoValue.errorV _ => false
  | _ => false

/-- `getLength`: length of slice, array, map, chan, or string; `none`
models the `(-1, false)` unsupported result. -/
def getLength : GoValue → Option Nat
  | GoValue.nilV => none
  | GoValue.arrayV _ xs => some (lenL xs)
  | GoValue.chanV _ _ buffered => some buffered
  | GoValue.mapV _ _ ps => some (lenP ps)
  | GoValue.nilMapV _ _ => some 0
  | GoValue.sliceV _ xs => some (lenL xs)
  | GoValue.nilSliceV _ => some 0
  | GoValue.stringV s => some s.length
  | _ => none

mutual
/-- `reflect.Value.IsZero` on the captured value (plus the leading
`value == nil` test of the source `isZero`). -/
def isZero : GoValue → Bool
  | GoValue.nilV => true
  | GoValue.boolV b => !b
  | GoValue.stringV s => decide (s.length = 0)
  | GoValue.intV _ n => decide (n = 0)
  | GoValue.uintV _ n => decide (n = 0)
  | GoValue.floatV _ x => gfEq x (GoFloat.finite 0)
  | GoValue.ptrV _ _ => false
  | GoValue.nilPtrV _ => true
  | GoValue.sliceV _ _ => false
  | GoValue.nilSliceV _ => true
  | GoValue.arrayV _ xs => isZeroL xs
  | GoValue.mapV _ _ _ => false
  | GoValue.nilMapV _ _ => true
  | GoValue.chanV _ h _ => h.isNone
  | GoValue.funcV _ isNilFn => isNilFn
  | GoValue.structV _ fs => isZeroF fs
  | GoValue.errorV (GoError.nilPtrErr _) => true
  | GoValue.errorV _ => false
termination_by structural v => v
/-- All array elements are zero values. -/
def isZeroL : GoValueList → Bool
  | GoValueList.nilL => true
  | GoValueList.consL x xs => isZero x && isZeroL xs
termination_by structural xs => xs
/-- All struct fields are zero values. -/
def isZeroF : GoFieldList → Bool
  | GoFieldList.nilF => true
  | GoFieldList.consF _ x fs => isZero x && isZeroF fs
termination_by structural fs => fs
end

/-- Deep structural equality of two error values (pointees compared
field-wise; typed nil pointers equal only each other at the same type). -/
def errDeepEq : GoError → GoError → Bool
  | GoError.nilPtrErr n1, GoError.nilPtrErr n2 => n1 == n2
  | GoError.leafErr n1 m1, GoError.leafErr n2 m2 => n1 == n2 && m1 == m2
  | GoError.wrapErr n1 m1 i1, GoError.wrapErr n2 m2 i2 =>
    n1 == n2 && m1 == m2 && errDeepEq i1 i2
  | _, _ => false

mutual
/-- `reflect.DeepEqual`.  Values of different concrete types are never
deeply equal; basic kinds compare with `==` (so NaN is not deeply equal
to itself); non-nil function values are never deeply equal, even to
themselves; channels compare by handle identity. -/
def deepEqual : GoValue → GoValue → Bool
  | GoValue.nilV, GoValue.nilV => true
  | GoValue.boolV a, GoValue.boolV b => a == b
  | GoValue.stringV a, GoValue.stringV b => a == b
  | GoValue.intV k1 a, GoValue.intV k2 b => k1 == k2 && a == b
  | GoValue.uintV k1 a, GoValue.uintV k2 b => k1 == k2 && a == b
  | GoValue.floatV k1 a, GoValue.floatV k2 b => k1 == k2 && gfEq a b
  | GoValue.ptrV t1 a, GoValue.ptrV t2 b => t1 == t2 && deepEqual a b
  | GoValue.nilPtrV t1, GoValue.nilPtrV t2 => t1 == t2
  | GoValue.sliceV t1 xs, GoValue.sliceV t2 ys =>
    t1 == t2 && lenL xs == lenL ys && deepEqualL xs ys
  | GoValue.nilSliceV t1, GoValue.nilSliceV t2 => t1 == t2
  | GoValue.arrayV t1 xs, GoValue.arrayV t2 ys =>
    t1 == t2 && lenL xs == lenL ys && deepEqualL xs ys
  | GoValue.mapV k1 w1 ps, GoValue.mapV k2 w2 qs =>
    k1 == k2 && w1 == w2 && deepEqualP ps qs
  | GoValue.nilMapV k1 w1, GoValue.nilMapV k2 w2 => k1 == k2 && w1 == w2
  | GoValue.chanV t1 h1 _, GoValue.chanV t2 h2 _ => t1 == t2 && h1 == h2
  | GoValue.funcV s1 n1, GoValue.funcV s2 n2 => s1 == s2 && n1 && n2
  | GoValue.structV n1 fs, GoValue.structV n2 gs => n1 == n2 && deepEqualF fs gs
  | GoValue.errorV e1, GoValue.errorV e2 => errDeepEq e1 e2
  | _, _ => false
termination_by structural v => v
/-- Elementwise deep equality of slice/array contents. -/
def deepEqualL : GoValueList → GoValueList → Bool
  | GoValueList.nilL, GoValueList.nilL => true
  | GoValueList.consL x xs, GoValueList.consL y ys => deepEqual x y && deepEqualL xs ys
  | _, _ => false
termination_by structural xs => xs
/-- Entrywise deep equality of map contents. -/
def deepEqualP : GoPairList → GoPairList → Bool
  | GoPairList.nilP, GoPairList.nilP => true
  | GoPairList.consP k1 v1 ps, GoPairList.consP k2 v2 qs =>
    deepEqual k1 k2 && deepEqual v1 v2 && deepEqualP ps qs
  | _, _ => false
termination_by structural ps => ps
/-- Fieldwise deep equality of struct contents. -/
def deepEqualF : GoFieldList → GoFieldList → Bool
  | GoFieldList.nilF, GoFieldList.nilF => true
  | GoFieldList.consF n1 v1 fs, GoFieldList.consF n2 v2 gs =>
    n1 == n2 && deepEqual v1 v2 && deepEqualF fs gs
  | _, _ => false
termination_by structural fs => fs
end

mutual
/-- Does the value contain a NaN float or a non-nil function value
anywhere?  On such values `reflect.DeepEqual` is not reflexive. -/
def hasIrrefl : GoValue → Bool
  | GoValue.floatV _ GoFloat.nan => true
  | GoValue.funcV _ isNilFn => !isNilFn
  | GoValue.ptrV _ a => hasIrrefl a
  | GoValue.sliceV _ xs => hasIrreflL xs
  | GoValue.arrayV _ xs => hasIrreflL xs
  | GoValue.mapV _ _ ps => hasIrreflP ps
  | GoValue.structV _ fs => hasIrreflF fs
  | _ => false
termination_by structural v => v
/-- `hasIrrefl` over slice/array contents. -/
def hasIrreflL : GoValueList → Bool
  | GoValueList.nilL => false
  | GoValueList.consL x xs => hasIrrefl x || hasIrreflL xs
termination_by structural xs => xs
/-- `hasIrrefl` over map contents. -/
def hasIrreflP : GoPairList → Bool
  | GoPairList.nilP => false
  | GoPairList.consP k v ps => hasIrrefl k || hasIrrefl v || hasIrreflP ps
termination_by structural ps => ps
/-- `hasIrrefl` over struct fields. -/
def hasIrreflF : GoFieldList → Bool
  | GoFieldList.nilF => false
  | GoFieldList.consF _ v fs => hasIrrefl v || hasIrreflF fs
termination_by structural fs => fs
end

/-- The `isNumeric` kind test inlined in `compare`. -/
def isNumericValue (v : GoValue) : Bool :=
  match goKind v with
  | GoKind.intK => true
  | GoKind.uintK => true
  | GoKind.floatK => true
  | _ => false

/-- Is the captured value a float64/float32 NaN? -/
def isNaNValue : GoValue → Bool
  | GoValue.floatV _ GoFloat.nan => true
  | _ => false

/-- `convertToFloat64`: numeric reflect values widen to float64; the
boolean mirrors the source's success flag. -/
def convertToFloat64 : GoValue → GoFloat × Bool
  | GoValue.intV _ n => (GoFloat.finite (n : ℚ), true)
  | GoValue.uintV _ n => (GoFloat.finite (n : ℚ), true)
  | GoValue.floatV _ x => (x, true)
  | _ => (GoFloat.finite 0, false)

/-- The cross-type tail of `compare`: if both operands are numeric they are
widened to float64 and compared there; otherwise not comparable. -/
def compareCross (v1 v2 : GoValue) (op : CmpOp) : Except String (Bool × Bool) :=
  if isNumericValue v1 && isNumericValue v2 then
    let p1 := convertToFloat64 v1
    let p2 := convertToFloat64 v2
    if p1.2 && p2.2 then Except.ok (gfCmp op p1.1 p2.1, true)
    else Except.ok (false, false)
  else Except.ok (false, false)

/-- `compare`: identical numeric types compare in their own domain, other
pairs fall through to the float64 widening path.  Calling it with an
untyped nil operand panics inside `reflect.Value.Type` (modelled as the
`Except.error` case). -/
def compare (v1 v2 : GoValue) (op : CmpOp) : Except String (Bool × Bool) :=
  if isInvalidV v1 || isInvalidV v2 then
    Except.error "reflect: call of reflect.Value.Type on zero Value"
  else if goTypeOf v1 == goTypeOf v2 then
    match v1, v2 with
    | GoValue.intV _ a, GoValue.intV _ b => Except.ok (zcmp op a b, true)
    | GoValue.uintV _ a, GoValue.uintV _ b => Except.ok (ncmp op a b, true)
    | GoValue.floatV _ a, GoValue.floatV _ b => Except.ok (gfCmp op a b, true)
    | w1, w2 => compareCross w1 w2 op
  else compareCross v1 v2 op

end Bumert

namespace Bumert

/-- `a.value.(error)` followed by the `isNil(err)` check of the source:
`some e` exactly when the captured value is a non-nil error. -/
def errOf : GoValue → Option GoError
  | GoValue.errorV (GoError.nilPtrErr _) => none
  | GoValue.errorV e => some e
  | _ => none

/-- Abstraction of `errors.As`: walk the wrap chain looking for a link of
the target's concrete type. -/
def errAs : GoError → String → Bool
  | GoError.nilPtrErr n, t => n == t
  | GoError.leafErr n _, t => n == t
  | GoError.wrapErr n _ inner, t => n == t || errAs inner t

/-- Concrete type name a pointer target designates (the name `errors.As`
matches against). -/
def targetElemName : GoValue → String
  | GoValue.ptrV (GoType.structT n) _ => n
  | GoValue.errorV e => errTyName e
  | _ => ""

/-- `BeNil` checks that the asserted value is nil. -/
def Assertion.BeNil (a : Assertion) (site : CallSite) : AResult :=
  if !isNil a.value then
    failAssertion site ("should be nil: value (" ++ fmtValue a.value ++ ") of type "
      ++ fmtType a.value ++ " is not nil")
  else Except.ok a

/-- `NotBeNil` checks that the asserted value is not nil. -/
def Assertion.NotBeNil (a : Assertion) (site : CallSite) : AResult :=
  if isNil a.value then
    failAssertion site "should not be nil: value is nil"
  else Except.ok a

/-- `TrueFn` checks that the provided function returns true; `fres` is the
value `f()` evaluates to. -/
def Assertion.TrueFn (a : Assertion) (fres : Bool) (site : CallSite) : AResult :=
  if !fres then
    failAssertion site "function returned false"
  else Except.ok a

/-- `BeTrue` checks that the asserted value is the boolean `true`. -/
def Assertion.BeTrue (a : Assertion) (site : CallSite) : AResult :=
  match a.value with
  | GoValue.boolV true => Except.ok a
  | _ =>
    failAssertion site ("should be true, but got: " ++ fmtValue a.value
      ++ " (type " ++ fmtType a.value ++ ")")

/-- `BeFalse` checks that the asserted value is the boolean `false`. -/
def Assertion.BeFalse (a : Assertion) (site : CallSite) : AResult :=
  match a.value with
  | GoValue.boolV false => Except.ok a
  | _ =>
    failAssertion site ("should be false, but got: " ++ fmtValue a.value
      ++ " (type " ++ fmtType a.value ++ ")")

/-- `BeEqual` compares with `reflect.DeepEqual`. -/
def Assertion.BeEqual (a : Assertion) (expected : GoValue) (site : CallSite) : AResult :=
  if !deepEqual a.value expected then
    failAssertion site ("should be equal:\n  expected: " ++ fmtValue expected
      ++ " (type " ++ fmtType expected ++ ")\n       got: " ++ fmtValue a.value
      ++ " (type " ++ fmtType a.value ++ ")")
  else Except.ok a

/-- `NotBeEqual` requires `reflect.DeepEqual` to be false. -/
def Assertion.NotBeEqual (a : Assertion) (unexpected : GoValue) (site : CallSite) : AResult :=
  if deepEqual a.value unexpected then
    failAssertion site ("should not be equal, but got: " ++ fmtValue a.value
      ++ " (type " ++ fmtType a.value ++ ")")
  else Except.ok a

/-- `BeEmpty`: nil, or length-testable of length zero. -/
def Assertion.BeEmpty (a : Assertion) (site : CallSite) : AResult :=
  if isNil a.value then Except.ok a
  else
    match getLength a.value with
    | some length =>
      if length = 0 then Except.ok a
      else
        failAssertion site ("should be empty, but got length " ++ toString length
          ++ ": " ++ fmtValue a.value)
    | none =>
      failAssertion site ("should be empty, but got non-nil, non-length-testable value: "
        ++ fmtValue a.value ++ " (type " ++ fmtType a.value ++ ")")

/-- `NotBeEmpty`: not nil, and not a length-testable value of length 0. -/
def Assertion.NotBeEmpty (a : Assertion) (site : CallSite) : AResult :=
  if isNil a.value then
    failAssertion site "should not be empty, but got nil"
  else
    match getLength a.value with
    | some length =>
      if length = 0 then
        failAssertion site ("should not be empty, but got zero length: " ++ fmtValue a.value)
      else Except.ok a
    | none => Except.ok a

/-- `HaveLen` compares the collection length with the expected `int`. -/
def Assertion.HaveLen (a : Assertion) (expectedLen : Int) (site : CallSite) : AResult :=
  match getLength a.value with
  | some length =>
    if (length : Int) ≠ expectedLen then
      failAssertion site ("should have length " ++ toString expectedLen ++ ", but got "
        ++ toString length ++ ": " ++ fmtValue a.value)
    else Except.ok a
  | none =>
    failAssertion site ("should have length, but got non-length-testable value: "
      ++ fmtValue a.value ++ " (type " ++ fmtType a.value ++ ")")

/-- Elementwise `reflect.DeepEqual` scan used by `Contain`/`NotContain`. -/
def containScan : GoValueList → GoValue → Bool
  | GoValueList.nilL, _ => false
  | GoValueList.consL x xs, e => deepEqual x e || containScan xs e

/-- `Contain`: substring test for strings, deep-equality element scan for
slices and arrays; any other kind is unsupported. -/
def Assertion.Contain (a : Assertion) (expectedElement : GoValue) (site : CallSite) : AResult :=
  match a.value with
  | GoValue.stringV s =>
    match expectedElement with
    | GoValue.stringV sub =>
      if !strContains s sub then
        failAssertion site ("string " ++ s ++ " should contain substring " ++ sub)
      else Except.ok a
    | _ =>
      failAssertion site ("Contain expected a string element for string value, got "
        ++ fmtType expectedElement)
  | GoValue.sliceV _ xs =>
    if !containScan xs expectedElement then
      failAssertion site ("collection " ++ fmtValue a.value ++ " should contain element "
        ++ fmtValue expectedElement)
    else Except.ok a
  | GoValue.nilSliceV _ =>
    failAssertion site ("collection " ++ fmtValue a.value ++ " should contain element "
      ++ fmtValue expectedElement)
  | GoValue.arrayV _ xs =>
    if !containScan xs expectedElement then
      failAssertion site ("collection " ++ fmtValue a.value ++ " should contain element "
        ++ fmtValue expectedElement)
    else Except.ok a
  | _ =>
    failAssertion site ("Contain requires slice, array, or string, got " ++ fmtType a.value)

/-- `NotContain`: negation of the containment scan, same kind dispatch. -/
def Assertion.NotContain (a : Assertion) (unexpectedElement : GoValue) (site : CallSite) : AResult :=
  match a.value with
  | GoValue.stringV s =>
    match unexpectedElement with
    | GoValue.stringV sub =>
      if strContains s sub then
        failAssertion site ("string " ++ s ++ " should not contain substring " ++ sub)
      else Except.ok a
    | _ =>
      failAssertion site ("NotContain expected a string element for string value, got "
        ++ fmtType unexpectedElement)
  | GoValue.sliceV _ xs =>
    if containScan xs unexpectedElement then
      failAssertion site ("collection " ++ fmtValue a.value ++ " should not contain element "
        ++ fmtValue unexpectedElement)
    else Except.ok a
  | GoValue.nilSliceV _ => Except.ok a
  | GoValue.arrayV _ xs =>
    if containScan xs unexpectedElement then
      failAssertion site ("collection " ++ fmtValue a.value ++ " should not contain element "
        ++ fmtValue unexpectedElement)
    else Except.ok a
  | _ =>
    failAssertion site ("NotContain requires slice, array, or string, got " ++ fmtType a.value)

/-- `ContainSubstring` requires a string value containing the substring. -/
def Assertion.ContainSubstring (a : Assertion) (substring : String) (site : CallSite) : AResult :=
  match a.value with
  | GoValue.stringV s =>
    if !strContains s substring then
      failAssertion site ("string " ++ s ++ " should contain substring " ++ substring)
    else Except.ok a
  | _ =>
    failAssertion site ("ContainSubstring requires a string value, got " ++ fmtType a.value)

/-- `HavePrefix` requires a string value with the given leading text. -/
def Assertion.HavePrefix (a : Assertion) (p : String) (site : CallSite) : AResult :=
  match a.value with
  | GoValue.stringV s =>
    if !strHasPfx s p then
      failAssertion site ("string " ++ s ++ " should have prefix " ++ p)
    else Except.ok a
  | _ =>
    failAssertion site ("HavePrefix requires a string value, got " ++ fmtType a.value)

/-- `HaveSuffix` requires a string value with the given trailing text. -/
def Assertion.HaveSuffix (a : Assertion) (sfx : String) (site : CallSite) : AResult :=
  match a.value with
  | GoValue.stringV s =>
    if !strHasSfx s sfx then
      failAssertion site ("string " ++ s ++ " should have suffix " ++ sfx)
    else Except.ok a
  | _ =>
    failAssertion site ("HaveSuffix requires a string value, got " ++ fmtType a.value)

/-- `BeZero` requires the zero value of the value's own type. -/
def Assertion.BeZero (a : Assertion) (site : CallSite) : AResult :=
  if !isZero a.value then
    failAssertion site ("should be the zero value, but got: " ++ fmtValue a.value
      ++ " (type " ++ fmtType a.value ++ ")")
  else Except.ok a

/-- `NotBeZero` requires a non-zero value. -/
def Assertion.NotBeZero (a : Assertion) (site : CallSite) : AResult :=
  if isZero a.value then
    failAssertion site ("should not be the zero value, but got: " ++ fmtValue a.value
      ++ " (type " ++ fmtType a.value ++ ")")
  else Except.ok a

/-- `BeGreaterThan`: numeric comparison via `compare` with `>`. -/
def Assertion.BeGreaterThan (a : Assertion) (expected : GoValue) (site : CallSite) : AResult :=
  match compare a.value expected CmpOp.gt with
  | Except.error m => Except.error (GoPanic.rawPanic m)
  | Except.ok rp =>
    if !rp.2 then
      failAssertion site ("BeGreaterThan requires comparable numeric types, got "
        ++ fmtType a.value ++ " and " ++ fmtType expected)
    else if !rp.1 then
      failAssertion site ("should be greater than " ++ fmtValue expected ++ ", but got "
        ++ fmtValue a.value)
    else Except.ok a

/-- `BeLessThan`: numeric comparison via `compare` with `<`. -/
def Assertion.BeLessThan (a : Assertion) (expected : GoValue) (site : CallSite) : AResult :=
  match compare a.value expected CmpOp.lt with
  | Except.error m => Except.error (GoPanic.rawPanic m)
  | Except.ok rp =>
    if !rp.2 then
      failAssertion site ("BeLessThan requires comparable numeric types, got "
        ++ fmtType a.value ++ " and " ++ fmtType expected)
    else if !rp.1 then
      failAssertion site ("should be less than " ++ fmtValue expected ++ ", but got "
        ++ fmtValue a.value)
    else Except.ok a

/-- `BeGreaterThanOrEqualTo`: numeric comparison via `compare` with `>=`. -/
def Assertion.BeGreaterThanOrEqualTo (a : Assertion) (expected : GoValue) (site : CallSite) : AResult :=
  match compare a.value expected CmpOp.ge with
  | Except.error m => Except.error (GoPanic.rawPanic m)
  | Except.ok rp =>
    if !rp.2 then
      failAssertion site ("BeGreaterThanOrEqualTo requires comparable numeric types, got "
        ++ fmtType a.value ++ " and " ++ fmtType expected)
    else if !rp.1 then
      failAssertion site ("should be greater than or equal to " ++ fmtValue expected
        ++ ", but got " ++ fmtValue a.value)
    else Except.ok a

/-- `BeLessThanOrEqualTo`: numeric comparison via `compare` with `<=`. -/
def Assertion.BeLessThanOrEqualTo (a : Assertion) (expected : GoValue) (site : CallSite) : AResult :=
  match compare a.value expected CmpOp.le with
  | Except.error m => Except.error (GoPanic.rawPanic m)
  | Except.ok rp =>
    if !rp.2 then
      failAssertion site ("BeLessThanOrEqualTo requires comparable numeric types, got "
        ++ fmtType a.value ++ " and " ++ fmtType expected)
    else if !rp.1 then
      failAssertion site ("should be less than or equal to " ++ fmtValue expected
        ++ ", but got " ++ fmtValue a.value)
    else Except.ok a

/-- `BeError`: a non-nil value implementing the error interface. -/
def Assertion.BeError (a : Assertion) (site : CallSite) : AResult :=
  if isNil a.value then
    failAssertion site "should be an error, but got nil"
  else
    match a.value with
    | GoValue.errorV _ => Except.ok a
    | _ =>
      failAssertion site ("should be an error, but got type " ++ fmtType a.value
        ++ " with value " ++ fmtValue a.value)

/-- `NotBeError`: nil, or anything that is not an error value. -/
def Assertion.NotBeError (a : Assertion) (site : CallSite) : AResult :=
  if !isNil a.value then
    match a.value with
    | GoValue.errorV e =>
      failAssertion site ("should not be an error, but got: " ++ errMsg e)
    | _ => Except.ok a
  else Except.ok a

/-- `BeErrorOfType`: a non-nil error matching (or wrapping) the target's
concrete type; a nil or non-pointer target is caller misuse and raises a
direct panic, bypassing `failAssertion`. -/
def Assertion.BeErrorOfType (a : Assertion) (target : GoValue) (site : CallSite) : AResult :=
  match errOf a.value with
  | none =>
    failAssertion site ("should be a non-nil error, but got: " ++ fmtValue a.value
      ++ " (type " ++ fmtType a.value ++ ")")
  | some e =>
    if !(goKind target == GoKind.ptrK) || isNil target then
      Except.error (GoPanic.rawPanic
        ("internal bumert error: BeErrorOfType target must be a non-nil pointer, got "
          ++ fmtType target))
    else if !errAs e (targetElemName target) then
      failAssertion site ("error type should be " ++ targetElemName target
        ++ " (or wrap it), but got type " ++ fmtType a.value ++ ": " ++ errMsg e)
    else Except.ok a

/-- `BeErrorWithMessage`: a non-nil error whose message contains the
substring. -/
def Assertion.BeErrorWithMessage (a : Assertion) (substring : String) (site : CallSite) : AResult :=
  match errOf a.value with
  | none =>
    failAssertion site ("should be a non-nil error, but got: " ++ fmtValue a.value
      ++ " (type " ++ fmtType a.value ++ ")")
  | some e =>
    if !strContains (errMsg e) substring then
      failAssertion site ("error message " ++ errMsg e ++ " should contain substring "
        ++ substring)
    else Except.ok a

end Bumert

/-- One call to a predicate method of the fluent surface, with its
argument where the method takes one.  `trueFn` carries the boolean the
supplied function evaluates to. -/
inductive PredCall where
  | beNil
  | notBeNil
  | trueFn (fres : Bool)
  | beTrue
  | beFalse
  | beEqual (x : GoValue)
  | notBeEqual (x : GoValue)
  | beEmpty
  | notBeEmpty
  | haveLen (n : Int)
  | containE (x : GoValue)
  | notContainE (x : GoValue)
  | containSubstr (s : String)
  | hasPfx (s : String)
  | hasSfx (s : String)
  | beZero
  | notBeZero
  | beGT (x : GoValue)
  | beLT (x : GoValue)
  | beGE (x : GoValue)
  | beLE (x : GoValue)
  | beError
  | notBeError
  | beErrorOfType (target : GoValue)
  | beErrorWithMsg (s : String)

namespace Bumert

/-- Dispatch one predicate call on the active (debug) variant. -/
def runPred (c : PredCall) (a : Assertion) (site : CallSite) : AResult :=
  match c with
  | PredCall.beNil => Assertion.BeNil a site
  | PredCall.notBeNil => Assertion.NotBeNil a site
  | PredCall.trueFn fres => Assertion.TrueFn a fres site
  | PredCall.beTrue => Assertion.BeTrue a site
  | PredCall.beFalse => Assertion.BeFalse a site
  | PredCall.beEqual x => Assertion.BeEqual a x site
  | PredCall.notBeEqual x => Assertion.NotBeEqual a x site
  | PredCall.beEmpty => Assertion.BeEmpty a site
  | PredCall.notBeEmpty => Assertion.NotBeEmpty a site
  | PredCall.haveLen n => Assertion.HaveLen a n site
  | PredCall.containE x => Assertion.Contain a x site
  | PredCall.notContainE x => Assertion.NotContain a x site
  | PredCall.containSubstr s => Assertion.ContainSubstring a s site
  | PredCall.hasPfx s => Assertion.HavePrefix a s site
  | PredCall.hasSfx s => Assertion.HaveSuffix a s site
  | PredCall.beZero => Assertion.BeZero a site
  | PredCall.notBeZero => Assertion.NotBeZero a site
  | PredCall.beGT x => Assertion.BeGreaterThan a x site
  | PredCall.beLT x => Assertion.BeLessThan a x site
  | PredCall.beGE x => Assertion.BeGreaterThanOrEqualTo a x site
  | PredCall.beLE x => Assertion.BeLessThanOrEqualTo a x site
  | PredCall.beError => Assertion.BeError a site
  | PredCall.notBeError => Assertion.NotBeError a site
  | PredCall.beErrorOfType target => Assertion.BeErrorOfType a target site
  | PredCall.beErrorWithMsg s => Assertion.BeErrorWithMessage a s site

end Bumert

namespace BumertRelease

/-- The no-op `Assertion` struct of release builds (empty struct). -/
structure Assertion where
deriving DecidableEq

/-- Result of a release-build method call in the panic-carrying embedding;
the bodies below are the literal `return a` of the generated stubs, so no
error is ever produced. -/
abbrev AResult := Except GoPanic Assertion

/-- The singleton no-op assertion instance. -/
def noOpAssertion : Assertion := {}

/-- `Should` is a no-op returning the shared singleton. -/
def Should (_ : GoValue) : Assertion :=
  noOpAssertion

/-- `BeNil` no-op stub. -/
def Assertion.BeNil (a : Assertion) : AResult := Except.ok a

/-- `NotBeNil` no-op stub. -/
def Assertion.NotBeNil (a : Assertion) : AResult := Except.ok a

/-- `TrueFn` no-op stub; the supplied function is never invoked. -/
def Assertion.TrueFn (a : Assertion) (_ : Bool) : AResult := Except.ok a

/-- `BeTrue` no-op stub. -/
def Assertion.BeTrue (a : Assertion) : AResult := Except.ok a

/-- `BeFalse` no-op stub. -/
def Assertion.BeFalse (a : Assertion) : AResult := Except.ok a

/-- `BeEqual` no-op stub. -/
def Assertion.BeEqual (a : Assertion) (_ : GoValue) : AResult := Except.ok a

/-- `NotBeEqual` no-op stub. -/
def Assertion.NotBeEqual (a : Assertion) (_ : GoValue) : AResult := Except.ok a

/-- `BeEmpty` no-op stub. -/
def Assertion.BeEmpty (a : Assertion) : AResult := Except.ok a

/-- `NotBeEmpty` no-op stub. -/
def Assertion.NotBeEmpty (a : Assertion) : AResult := Except.ok a

/-- `HaveLen` no-op stub. -/
def Assertion.HaveLen (a : Assertion) (_ : Int) : AResult := Except.ok a

/-- `Contain` no-op stub. -/
def Assertion.Contain (a : Assertion) (_ : GoValue) : AResult := Except.ok a

/-- `NotContain` no-op stub. -/
def Assertion.NotContain (a : Assertion) (_ : GoValue) : AResult := Except.ok a

/-- `ContainSubstring` no-op stub. -/
def Assertion.ContainSubstring (a : Assertion) (_ : String) : AResult := Except.ok a

/-- `HavePrefix` no-op stub. -/
def Assertion.HavePrefix (a : Assertion) (_ : String) : AResult := Except.ok a

/-- `HaveSuffix` no-op stub. -/
def Assertion.HaveSuffix (a : Assertion) (_ : String) : AResult := Except.ok a

/-- `BeZero` no-op stub. -/
def Assertion.BeZero (a : Assertion) : AResult := Except.ok a

/-- `NotBeZero` no-op stub. -/
def Assertion.NotBeZero (a : Assertion) : AResult := Except.ok a

/-- `BeGreaterThan` no-op stub. -/
def Assertion.BeGreaterThan (a : Assertion) (_ : GoValue) : AResult := Except.ok a

/-- `BeLessThan` no-op stub. -/
def Assertion.BeLessThan (a : Assertion) (_ : GoValue) : AResult := Except.ok a

/-- `BeGreaterThanOrEqualTo` no-op stub. -/
def Assertion.BeGreaterThanOrEqualTo (a : Assertion) (_ : GoValue) : AResult := Except.ok a

/-- `BeLessThanOrEqualTo` no-op stub. -/
def Assertion.BeLessThanOrEqualTo (a : Assertion) (_ : GoValue) : AResult := Except.ok a

/-- `BeError` no-op stub. -/
def Assertion.BeError (a : Assertion) : AResult := Except.ok a

/-- `NotBeError` no-op stub. -/
def Assertion.NotBeError (a : Assertion) : AResult := Except.ok a

/-- `BeErrorOfType` no-op stub; the target is discarded unexamined. -/
def Assertion.BeErrorOfType (a : Assertion) (_ : GoValue) : AResult := Except.ok a

/-- `BeErrorWithMessage` no-op stub. -/
def Assertion.BeErrorWithMessage (a : Assertion) (_ : String) : AResult := Except.ok a

/-- Dispatch one predicate call on the inert (release) variant. -/
def runPred (c : PredCall) (a : Assertion) : AResult :=
  match c with
  | PredCall.beNil => Assertion.BeNil a
  | PredCall.notBeNil => Assertion.NotBeNil a
  | PredCall.trueFn fres => Assertion.TrueFn a fres
  | PredCall.beTrue => Assertion.BeTrue a
  | PredCall.beFalse => Assertion.BeFalse a
  | PredCall.beEqual x => Assertion.BeEqual a x
  | PredCall.notBeEqual x => Assertion.NotBeEqual a x
  | PredCall.beEmpty => Assertion.BeEmpty a
  | PredCall.notBeEmpty => Assertion.NotBeEmpty a
  | PredCall.haveLen n => Assertion.HaveLen a n
  | PredCall.containE x => Assertion.Contain a x
  | PredCall.notContainE x => Assertion.NotContain a x
  | PredCall.containSubstr s => Assertion.ContainSubstring a s
  | PredCall.hasPfx s => Assertion.HavePrefix a s
  | PredCall.hasSfx s => Assertion.HaveSuffix a s
  | PredCall.beZero => Assertion.BeZero a
  | PredCall.notBeZero => Assertion.NotBeZero a
  | PredCall.beGT x => Assertion.BeGreaterThan a x
  | PredCall.beLT x => Assertion.BeLessThan a x
  | PredCall.beGE x => Assertion.BeGreaterThanOrEqualTo a x
  | PredCall.beLE x => Assertion.BeLessThanOrEqualTo a x
  | PredCall.beError => Assertion.BeError a
  | PredCall.notBeError => Assertion.NotBeError a
  | PredCall.beErrorOfType target => Assertion.BeErrorOfType a target
  | PredCall.beErrorWithMsg s => Assertion.BeErrorWithMessage a s

end BumertRelease

/-- A sample call site with a multi-segment path. -/
def sampleSite : CallSite := { file := "pkg/dir/file.go", line := 12 }

/-- A second sample call site. -/
def sampleSite2 : CallSite := { file := "tests/case.go", line := 7 }

/-- The float64 NaN as a captured value. -/
def nanFloat : GoValue := GoValue.floatV FloatKind.f64 GoFloat.nan

/-- The float64 0.0 as a captured value. -/
def zeroFloat : GoValue := GoValue.floatV FloatKind.f64 (GoFloat.finite 0)

/-- A non-nil function value. -/
def sampleFunc : GoValue := GoValue.funcV 0 false

/-- A nested aggregate (struct holding a slice and a map) used to exercise
deep-equality reflexivity. -/
def sampleNested : GoValue :=
  GoValue.structV "pair"
    (GoFieldList.consF "xs"
      (GoValue.sliceV (GoType.intT SIntKind.i)
        (GoValueList.consL (GoValue.intV SIntKind.i 1)
          (GoValueList.consL (GoValue.intV SIntKind.i 2) GoValueList.nilL)))
      (GoFieldList.consF "m"
        (GoValue.mapV GoType.stringT GoType.boolT
          (GoPairList.consP (GoValue.stringV "k") (GoValue.boolV true) GoPairList.nilP))
        GoFieldList.nilF))

/-- A concrete non-nil leaf error value. -/
def sampleLeafErr : GoValue := GoValue.errorV (GoError.leafErr "mypkg.MyError" "boom")

/-- C1: in the inert (release) variant, every predicate method, on every
input — including a nil `BeErrorOfType` target and a false-returning
function passed to `TrueFn` — never raises any panic and returns its own
receiver unchanged; `Should` always hands out the (non-nil) singleton
no-op assertion. -/
theorem c1_inert_never_raises :
    (∀ (c : PredCall) (a : BumertRelease.Assertion),
      BumertRelease.runPred c a = Except.ok a)
    ∧ (∀ v : GoValue, BumertRelease.Should v = BumertRelease.noOpAssertion) := by
  constructor
  · intro c a
    cases c <;> rfl
  · intro v
    rfl

/-- C2: in the active variant, for every captured value, `NotBeNil`
returns its receiver exactly when `BeNil` raises, and `BeNil` returns its
receiver exactly when `NotBeNil` raises: the two predicates are exact
complements. -/
theorem c2_benil_notbenil_complement (v : GoValue) (s t : CallSite) :
    ((Bumert.Assertion.NotBeNil (Bumert.Should v) s = Except.ok (Bumert.Should v)) ↔
      ∃ p, Bumert.Assertion.BeNil (Bumert.Should v) t = Except.error p)
    ∧ ((Bumert.Assertion.BeNil (Bumert.Should v) s = Except.ok (Bumert.Should v)) ↔
      ∃ p, Bumert.Assertion.NotBeNil (Bumert.Should v) t = Except.error p) := by
  cases h : Bumert.isNil v <;>
    simp [Bumert.Assertion.BeNil, Bumert.Assertion.NotBeNil, Bumert.Should,
      Bumert.failAssertion, h]

/-- C5: the nil-ness test holds exactly for the untyped nil interface and
for values of the nilable kinds (pointer, slice, map, channel, function —
plus the pointer-shaped error values) whose inner handle is nil; a
zero-valued struct is never nil. -/
theorem c5_isnil_characterisation :
    (∀ v : GoValue,
      Bumert.isNil v = true ↔
        (v = GoValue.nilV
          ∨ (∃ t, v = GoValue.nilPtrV t)
          ∨ (∃ t, v = GoValue.nilSliceV t)
          ∨ (∃ kt vt, v = GoValue.nilMapV kt vt)
          ∨ (∃ t l, v = GoValue.chanV t none l)
          ∨ (∃ sig, v = GoValue.funcV sig true)
          ∨ (∃ n, v = GoValue.errorV (GoError.nilPtrErr n))))
    ∧ (∀ (n : String) (fs : GoFieldList),
        Bumert.isNil (GoValue.structV n fs) = false) := by
  constructor
  · intro v
    cases v with
    | chanV t h l => cases h <;> simp [Bumert.isNil]
    | funcV sig isn => cases isn <;> simp [Bumert.isNil]
    | errorV e => cases e <;> simp [Bumert.isNil]
    | _ => simp [Bumert.isNil]
  · intro n fs
    rfl

/-- C6: a non-nil zero-length slice is empty but not zero: `BeEmpty`
passes on it while `BeZero` raises the fail-fast signal. -/
theorem c6_empty_slice_not_zero (t : GoType) (s u : CallSite) :
    Bumert.Assertion.BeEmpty (Bumert.Should (GoValue.sliceV t GoValueList.nilL)) s
      = Except.ok (Bumert.Should (GoValue.sliceV t GoValueList.nilL))
    ∧ ∃ m, Bumert.Assertion.BeZero (Bumert.Should (GoValue.sliceV t GoValueList.nilL)) u
      = Bumert.failAssertion u m := by
  exact ⟨rfl, "should be the zero value, but got: slice (type []T)", rfl⟩

/-- C10: `HaveLen` on the untyped nil value always raises the
non-length-testable diagnostic — it never reports a length mismatch, and
`HaveLen 0` does not pass — while a typed nil slice or map is
length-testable with length 0, so `HaveLen 0` passes there. -/
theorem c10_havelen_untyped_nil (n : Int) (et kt vt : GoType) (s u w : CallSite) :
    Bumert.Assertion.HaveLen (Bumert.Should GoValue.nilV) n s
      = Bumert.failAssertion s
          "should have length, but got non-length-testable value: <nil> (type <nil>)"
    ∧ Bumert.Assertion.HaveLen (Bumert.Should (GoValue.nilSliceV et)) 0 u
      = Except.ok (Bumert.Should (GoValue.nilSliceV et))
    ∧ Bumert.Assertion.HaveLen (Bumert.Should (GoValue.nilMapV kt vt)) 0 w
      = Except.ok (Bumert.Should (GoValue.nilMapV kt vt)) := by
  exact ⟨rfl, rfl, rfl⟩

namespace Bumert

/-- A false disjunct on the left of a false boolean or. -/
theorem orFalseLeft {a b : Bool} (h : (a || b) = false) : a = false := by
  cases a <;> simp_all

/-- A false disjunct on the right of a false boolean or. -/
theorem orFalseRight {a b : Bool} (h : (a || b) = false) : b = false := by
  cases b <;> simp_all

/-- Deep equality of error values is reflexive. -/
theorem errDeepEq_refl (e : GoError) : errDeepEq e e = true := by
  induction e <;> simp_all [errDeepEq]

mutual
/-- `reflect.DeepEqual` is reflexive on every value containing no NaN and
no non-nil function value. -/
theorem deepEqual_refl : (v : GoValue) → hasIrrefl v = false → deepEqual v v = true
  | GoValue.nilV, _ => rfl
  | GoValue.boolV b, _ => beq_self_eq_true b
  | GoValue.stringV s, _ => beq_self_eq_true s
  | GoValue.intV k n, _ => by
    show (k == k && n == n) = true
    rw [beq_self_eq_true, beq_self_eq_true]
    rfl
  | GoValue.uintV k n, _ => by
    show (k == k && n == n) = true
    rw [beq_self_eq_true, beq_self_eq_true]
    rfl
  | GoValue.floatV k x, h => by
    cases x with
    | nan => exact Bool.noConfusion h
    | finite q =>
      show (k == k && gfEq (GoFloat.finite q) (GoFloat.finite q)) = true
      rw [beq_self_eq_true]
      simp [gfEq]
    | posInf =>
      show (k == k && gfEq GoFloat.posInf GoFloat.posInf) = true
      rw [beq_self_eq_true]
      simp [gfEq]
    | negInf =>
      show (k == k && gfEq GoFloat.negInf GoFloat.negInf) = true
      rw [beq_self_eq_true]
      simp [gfEq]
  | GoValue.ptrV t a, h => by
    show (t == t && deepEqual a a) = true
    rw [beq_self_eq_true, deepEqual_refl a h]
    rfl
  | GoValue.nilPtrV t, _ => beq_self_eq_true t
  | GoValue.sliceV t xs, h => by
    show (t == t && lenL xs == lenL xs && deepEqualL xs xs) = true
    rw [beq_self_eq_true, beq_self_eq_true, deepEqualL_refl xs h]
    rfl
  | GoValue.nilSliceV t, _ => beq_self_eq_true t
  | GoValue.arrayV t xs, h => by
    show (t == t && lenL xs == lenL xs && deepEqualL xs xs) = true
    rw [beq_self_eq_true, beq_self_eq_true, deepEqualL_refl xs h]
    rfl
  | GoValue.mapV kt vt ps, h => by
    show (kt == kt && vt == vt && deepEqualP ps ps) = true
    rw [beq_self_eq_true, beq_self_eq_true, deepEqualP_refl ps h]
    rfl
  | GoValue.nilMapV kt vt, _ => by
    show (kt == kt && vt == vt) = true
    rw [beq_self_eq_true, beq_self_eq_true]
    rfl
  | GoValue.chanV t hh l, _ => by
    show (t == t && hh == hh) = true
    rw [beq_self_eq_true, beq_self_eq_true]
    rfl
  | GoValue.funcV sig isn, h => by
    cases isn with
    | false => exact Bool.noConfusion h
    | true =>
      show (sig == sig && true && true) = true
      rw [beq_self_eq_true]
      rfl
  | GoValue.structV n fs, h => by
    show (n == n && deepEqualF fs fs) = true
    rw [beq_self_eq_true, deepEqualF_refl fs h]
    rfl
  | GoValue.errorV e, _ => errDeepEq_refl e
termination_by structural v => v
/-- Reflexivity of elementwise deep equality. -/
theorem deepEqualL_refl : (xs : GoValueList) → hasIrreflL xs = false → deepEqualL xs xs = true
  | GoValueList.nilL, _ => rfl
  | GoValueList.consL x xs, h => by
    have h0 : (hasIrrefl x || hasIrreflL xs) = false := h
    show (deepEqual x x && deepEqualL xs xs) = true
    rw [deepEqual_refl x (orFalseLeft h0), deepEqualL_refl xs (orFalseRight h0)]
    rfl
termination_by structural xs => xs
/-- Reflexivity of entrywise deep equality. -/
theorem deepEqualP_refl : (ps : GoPairList) → hasIrreflP ps = false → deepEqualP ps ps = true
  | GoPairList.nilP, _ => rfl
  | GoPairList.consP k v ps, h => by
    have h0 : ((hasIrrefl k || hasIrrefl v) || hasIrreflP ps) = false := h
    show (deepEqual k k && deepEqual v v && deepEqualP ps ps) = true
    rw [deepEqual_refl k (orFalseLeft (orFalseLeft h0)),
      deepEqual_refl v (orFalseRight (orFalseLeft h0)),
      deepEqualP_refl ps (orFalseRight h0)]
    rfl
termination_by structural ps => ps
/-- Reflexivity of fieldwise deep equality. -/
theorem deepEqualF_refl : (fs : GoFieldList) → hasIrreflF fs = false → deepEqualF fs fs = true
  | GoFieldList.nilF, _ => rfl
  | GoFieldList.consF n v fs, h => by
    have h0 : (hasIrrefl v || hasIrreflF fs) = false := h
    show (n == n && deepEqual v v && deepEqualF fs fs) = true
    rw [beq_self_eq_true, deepEqual_refl v (orFalseLeft h0),
      deepEqualF_refl fs (orFalseRight h0)]
    rfl
termination_by structural fs => fs
end

end Bumert

/-- C4 (amended): deep structural equality is reflexive for every value
containing no NaN float and no non-nil function value — on such values
`BeEqual(v, v)` passes and `NotBeEqual(v, v)` raises — but not for NaN or
non-nil function values, on which `reflect.DeepEqual` denies reflexivity
(see the counterexample).  For all pairs, `BeEqual` and `NotBeEqual` never
both pass. -/
theorem c4_amended :
    (∀ (v : GoValue) (s t : CallSite), Bumert.hasIrrefl v = false →
      Bumert.Assertion.BeEqual (Bumert.Should v) v s = Except.ok (Bumert.Should v)
      ∧ ∃ p, Bumert.Assertion.NotBeEqual (Bumert.Should v) v t = Except.error p)
    ∧ (∀ (v w : GoValue) (s t : CallSite),
      ¬(Bumert.Assertion.BeEqual (Bumert.Should v) w s = Except.ok (Bumert.Should v)
        ∧ Bumert.Assertion.NotBeEqual (Bumert.Should v) w t = Except.ok (Bumert.Should v))) := by
  constructor
  · intro v s t h
    have hd := Bumert.deepEqual_refl v h
    simp [Bumert.Assertion.BeEqual, Bumert.Assertion.NotBeEqual, Bumert.Should,
      Bumert.failAssertion, hd]
  · intro v w s t hc
    rcases hc with ⟨h1, h2⟩
    cases hd : Bumert.deepEqual v w <;>
      simp [Bumert.Assertion.BeEqual, Bumert.Assertion.NotBeEqual, Bumert.Should,
        Bumert.failAssertion, hd] at h1 h2

/-- C4 witness: at a nested aggregate (struct holding a slice and a map),
`BeEqual(v, v)` passes and `NotBeEqual(v, v)` raises. -/
theorem c4_amended_witness :
    Bumert.hasIrrefl sampleNested = false
    ∧ Bumert.Assertion.BeEqual (Bumert.Should sampleNested) sampleNested sampleSite
        = Except.ok (Bumert.Should sampleNested)
    ∧ ∃ p, Bumert.Assertion.NotBeEqual (Bumert.Should sampleNested) sampleNested sampleSite2
        = Except.error p :=
  ⟨rfl, c4_amended.1 sampleNested sampleSite sampleSite2 rfl⟩

/-- C4 counterexample: on a non-nil function value, `BeEqual(v, v)` raises
instead of passing — `reflect.DeepEqual` holds between non-nil function
values only when both are nil, so deep equality is not reflexive for every
value, contrary to the claim. -/
theorem c4_counterexample :
    Bumert.Assertion.BeEqual (Bumert.Should sampleFunc) sampleFunc sampleSite
      = Bumert.failAssertion sampleSite
          "should be equal:\n  expected: func (type func())\n       got: func (type func())" := rfl

/-- Less-or-equal decides as the boolean negation of the reversed strict
comparison, in any linear order. -/
theorem decide_le_compl {α : Type} [LinearOrder α] (a b : α) :
    decide (a ≤ b) = !decide (b < a) := by
  rw [← decide_not]
  exact decide_eq_decide.mpr not_lt.symm

/-- `<=` and `>` on machine signed integers are exact complements. -/
theorem zcmp_le_compl (a b : Int) : zcmp CmpOp.le a b = !zcmp CmpOp.gt a b :=
  decide_le_compl a b

/-- `<=` and `>` on machine unsigned integers are exact complements. -/
theorem ncmp_le_compl (a b : Nat) : ncmp CmpOp.le a b = !ncmp CmpOp.gt a b :=
  decide_le_compl a b

/-- On rationals, `< or =` is the boolean complement of the reversed `<`. -/
theorem q_lt_or_eq_compl (a b : ℚ) :
    (decide (a < b) || decide (a = b)) = !decide (b < a) := by
  rcases lt_trichotomy a b with h | h | h
  · have h2 : ¬ b < a := asymm h
    simp [h, h2]
  · subst h
    simp [lt_irrefl]
  · have h2 : ¬ a < b := asymm h
    have h3 : a ≠ b := (ne_of_lt h).symm
    simp [h, h2, h3]

/-- IEEE `<=` and `>` are exact complements whenever neither operand is
NaN. -/
theorem gf_le_compl (x y : GoFloat) (hx : x ≠ GoFloat.nan) (hy : y ≠ GoFloat.nan) :
    gfCmp CmpOp.le x y = !gfCmp CmpOp.gt x y := by
  cases x <;> cases y <;> simp_all [gfCmp, gfLt, gfEq, q_lt_or_eq_compl]

namespace Bumert

/-- A numeric captured value is a signed integer, unsigned integer, or
float constructor. -/
theorem numeric_shape (v : GoValue) (h : isNumericValue v = true) :
    (∃ k a, v = GoValue.intV k a) ∨ (∃ k a, v = GoValue.uintV k a)
    ∨ (∃ k x, v = GoValue.floatV k x) := by
  cases v <;> simp_all [isNumericValue, goKind]

/-- Numeric values are not the untyped nil interface. -/
theorem numeric_not_invalid (v : GoValue) (h : isNumericValue v = true) :
    isInvalidV v = false := by
  cases v <;> simp_all [isNumericValue, goKind, isInvalidV]

/-- Widening a non-NaN numeric value always succeeds and never produces
NaN. -/
theorem cvt_props (v : GoValue) (h1 : isNumericValue v = true)
    (h2 : isNaNValue v = false) :
    (convertToFloat64 v).2 = true ∧ (convertToFloat64 v).1 ≠ GoFloat.nan := by
  rcases numeric_shape v h1 with ⟨k, a, rfl⟩ | ⟨k, a, rfl⟩ | ⟨k, x, rfl⟩
  · exact ⟨rfl, by simp [convertToFloat64]⟩
  · exact ⟨rfl, by simp [convertToFloat64]⟩
  · cases x <;> simp_all [convertToFloat64, isNaNValue]

/-- On numeric non-NaN operands the cross-type comparison path yields
complementary `>` and `<=` results, both marked comparable. -/
theorem compareCross_gt_le (v1 v2 : GoValue)
    (h1 : isNumericValue v1 = true) (h2 : isNumericValue v2 = true)
    (hn1 : isNaNValue v1 = false) (hn2 : isNaNValue v2 = false) :
    compareCross v1 v2 CmpOp.gt
      = Except.ok (gfCmp CmpOp.gt (convertToFloat64 v1).1 (convertToFloat64 v2).1, true)
    ∧ compareCross v1 v2 CmpOp.le
      = Except.ok (!gfCmp CmpOp.gt (convertToFloat64 v1).1 (convertToFloat64 v2).1, true) := by
  obtain ⟨ho1, hs1⟩ := cvt_props v1 h1 hn1
  obtain ⟨ho2, hs2⟩ := cvt_props v2 h2 hn2
  constructor
  · simp [compareCross, h1, h2, ho1, ho2]
  · simp [compareCross, h1, h2, ho1, ho2, gf_le_compl _ _ hs1 hs2]

/-- On numeric non-NaN operands, `compare` with `>` and with `<=` returns
complementary comparable results, whatever path (identical-type or
widening) is taken. -/
theorem compare_gt_le_compl (v1 v2 : GoValue)
    (h1 : isNumericValue v1 = true) (h2 : isNumericValue v2 = true)
    (hn1 : isNaNValue v1 = false) (hn2 : isNaNValue v2 = false) :
    ∃ r : Bool, compare v1 v2 CmpOp.gt = Except.ok (r, true)
      ∧ compare v1 v2 CmpOp.le = Except.ok (!r, true) := by
  have hi1 := numeric_not_invalid v1 h1
  have hi2 := numeric_not_invalid v2 h2
  by_cases hty : goTypeOf v1 = goTypeOf v2
  case neg =>
    have hbe : (goTypeOf v1 == goTypeOf v2) = false := by
      simp [hty]
    obtain ⟨e1, e2⟩ := compareCross_gt_le v1 v2 h1 h2 hn1 hn2
    refine ⟨gfCmp CmpOp.gt (convertToFloat64 v1).1 (convertToFloat64 v2).1, ?_, ?_⟩ <;>
      simp [compare, hi1, hi2, hbe, e1, e2]
  case pos =>
    rcases numeric_shape v1 h1 with ⟨k1, a, rfl⟩ | ⟨k1, a, rfl⟩ | ⟨k1, x, rfl⟩
    · rcases numeric_shape v2 h2 with ⟨k2, b, rfl⟩ | ⟨k2, b, rfl⟩ | ⟨k2, y, rfl⟩
      · have hk : k1 = k2 := by simpa [goTypeOf] using hty
        subst hk
        refine ⟨zcmp CmpOp.gt a b, ?_, ?_⟩
        · simp [compare, isInvalidV, goTypeOf]
        · simp [compare, isInvalidV, goTypeOf, zcmp_le_compl]
      · simp [goTypeOf] at hty
      · simp [goTypeOf] at hty
    · rcases numeric_shape v2 h2 with ⟨k2, b, rfl⟩ | ⟨k2, b, rfl⟩ | ⟨k2, y, rfl⟩
      · simp [goTypeOf] at hty
      · have hk : k1 = k2 := by simpa [goTypeOf] using hty
        subst hk
        refine ⟨ncmp CmpOp.gt a b, ?_, ?_⟩
        · simp [compare, isInvalidV, goTypeOf]
        · simp [compare, isInvalidV, goTypeOf, ncmp_le_compl]
      · simp [goTypeOf] at hty
    · rcases numeric_shape v2 h2 with ⟨k2, b, rfl⟩ | ⟨k2, b, rfl⟩ | ⟨k2, y, rfl⟩
      · simp [goTypeOf] at hty
      · simp [goTypeOf] at hty
      · have hk : k1 = k2 := by simpa [goTypeOf] using hty
        subst hk
        have hx : x ≠ GoFloat.nan := by
          cases x <;> simp_all [isNaNValue]
        have hy : y ≠ GoFloat.nan := by
          cases y <;> simp_all [isNaNValue]
        refine ⟨gfCmp CmpOp.gt x y, ?_, ?_⟩
        · simp [compare, isInvalidV, goTypeOf]
        · simp [compare, isInvalidV, goTypeOf, gf_le_compl x y hx hy]

end Bumert

/-- C3 (amended): in the active variant, for all numeric captured values
and numeric operands neither of which is an IEEE NaN, `BeGreaterThan`
passes exactly when `BeLessThanOrEqualTo` raises the fail-fast signal, and
vice versa.  When either operand is NaN the equivalence fails: both
predicates raise (see the counterexample). -/
theorem c3_amended (v1 v2 : GoValue) (s t : CallSite)
    (h1 : Bumert.isNumericValue v1 = true) (h2 : Bumert.isNumericValue v2 = true)
    (hn1 : Bumert.isNaNValue v1 = false) (hn2 : Bumert.isNaNValue v2 = false) :
    ((Bumert.Assertion.BeGreaterThan (Bumert.Should v1) v2 s = Except.ok (Bumert.Should v1)) ↔
      ∃ p, Bumert.Assertion.BeLessThanOrEqualTo (Bumert.Should v1) v2 t = Except.error p)
    ∧ ((Bumert.Assertion.BeLessThanOrEqualTo (Bumert.Should v1) v2 s
          = Except.ok (Bumert.Should v1)) ↔
      ∃ p, Bumert.Assertion.BeGreaterThan (Bumert.Should v1) v2 t = Except.error p) := by
  obtain ⟨r, hg, hl⟩ := Bumert.compare_gt_le_compl v1 v2 h1 h2 hn1 hn2
  cases r <;>
    simp [Bumert.Assertion.BeGreaterThan, Bumert.Assertion.BeLessThanOrEqualTo, Bumert.Should,
      Bumert.failAssertion, hg, hl]

/-- C3 witness: `Should(10).BeGreaterThan(9.5)` passes and
`Should(10).BeLessThanOrEqualTo(9.5)` raises, and the amended equivalence
holds at this concrete cross-kind pair. -/
theorem c3_amended_witness :
    Bumert.isNumericValue (GoValue.intV SIntKind.i 10) = true
    ∧ Bumert.isNumericValue (GoValue.floatV FloatKind.f64 (GoFloat.finite (mkRat 19 2))) = true
    ∧ Bumert.isNaNValue (GoValue.intV SIntKind.i 10) = false
    ∧ Bumert.isNaNValue (GoValue.floatV FloatKind.f64 (GoFloat.finite (mkRat 19 2))) = false
    ∧ (((Bumert.Assertion.BeGreaterThan (Bumert.Should (GoValue.intV SIntKind.i 10))
          (GoValue.floatV FloatKind.f64 (GoFloat.finite (mkRat 19 2))) sampleSite
          = Except.ok (Bumert.Should (GoValue.intV SIntKind.i 10))) ↔
        ∃ p, Bumert.Assertion.BeLessThanOrEqualTo (Bumert.Should (GoValue.intV SIntKind.i 10))
          (GoValue.floatV FloatKind.f64 (GoFloat.finite (mkRat 19 2))) sampleSite2
          = Except.error p)
      ∧ ((Bumert.Assertion.BeLessThanOrEqualTo (Bumert.Should (GoValue.intV SIntKind.i 10))
          (GoValue.floatV FloatKind.f64 (GoFloat.finite (mkRat 19 2))) sampleSite
          = Except.ok (Bumert.Should (GoValue.intV SIntKind.i 10))) ↔
        ∃ p, Bumert.Assertion.BeGreaterThan (Bumert.Should (GoValue.intV SIntKind.i 10))
          (GoValue.floatV FloatKind.f64 (GoFloat.finite (mkRat 19 2))) sampleSite2
          = Except.error p)) :=
  ⟨rfl, rfl, rfl, rfl,
    c3_amended (GoValue.intV SIntKind.i 10) (GoValue.floatV FloatKind.f64 (GoFloat.finite (mkRat 19 2)))
      sampleSite sampleSite2 rfl rfl rfl rfl⟩

/-- C3 counterexample: at captured value NaN and operand 0.0 (both
float64), `BeLessThanOrEqualTo` raises but `BeGreaterThan` does not pass —
it raises as well — so the claimed equivalence is false at this input. -/
theorem c3_counterexample :
    ¬ ((Bumert.Assertion.BeGreaterThan (Bumert.Should nanFloat) zeroFloat sampleSite
        = Except.ok (Bumert.Should nanFloat)) ↔
      ∃ p, Bumert.Assertion.BeLessThanOrEqualTo (Bumert.Should nanFloat) zeroFloat sampleSite
        = Except.error p) := by
  intro h
  have hBLE : Bumert.Assertion.BeLessThanOrEqualTo (Bumert.Should nanFloat) zeroFloat sampleSite
      = Except.error (GoPanic.assertPanic
          "file.go:12: assertion failed: should be less than or equal to float, but got float") :=
    rfl
  have h2 := h.mpr ⟨_, hBLE⟩
  have hBGT : Bumert.Assertion.BeGreaterThan (Bumert.Should nanFloat) zeroFloat sampleSite
      = Except.error (GoPanic.assertPanic
          "file.go:12: assertion failed: should be greater than float, but got float") :=
    rfl
  rw [hBGT] at h2
  exact Except.noConfusion h2

namespace Bumert

/-- When either operand is non-numeric (but neither is the untyped nil
interface, which would panic inside reflection), `compare` reports
not-comparable rather than any ordering result. -/
theorem compare_non_numeric (v1 v2 : GoValue)
    (h : isNumericValue v1 = false ∨ isNumericValue v2 = false)
    (h1 : v1 ≠ GoValue.nilV) (h2 : v2 ≠ GoValue.nilV) (op : CmpOp) :
    compare v1 v2 op = Except.ok (false, false) := by
  cases v1 <;> cases v2 <;>
    simp_all [compare, compareCross, isInvalidV, isNumericValue, goKind]

end Bumert

/-- C8: `BeErrorOfType` on a captured non-nil error with a nil or
non-pointer target raises a direct panic bypassing `failAssertion`, with a
payload beginning "internal bumert error: " (so the usage-error tier is
distinguishable from the "assertion failed" diagnostic tier), whereas a
captured value that is not a non-nil error raises an ordinary assertion
failure regardless of the target. -/
theorem c8_two_error_tiers (v target : GoValue) (s : CallSite) :
    (∀ e, Bumert.errOf v = some e →
      (goKind target ≠ GoKind.ptrK ∨ Bumert.isNil target = true) →
      Bumert.Assertion.BeErrorOfType (Bumert.Should v) target s
        = Except.error (GoPanic.rawPanic
            ("internal bumert error: BeErrorOfType target must be a non-nil pointer, got "
              ++ Bumert.fmtType target)))
    ∧ (Bumert.errOf v = none →
      Bumert.Assertion.BeErrorOfType (Bumert.Should v) target s
        = Bumert.failAssertion s ("should be a non-nil error, but got: " ++ Bumert.fmtValue v
            ++ " (type " ++ Bumert.fmtType v ++ ")")) := by
  constructor
  · intro e he hbad
    have hb : (!(goKind target == GoKind.ptrK) || Bumert.isNil target) = true := by
      rcases hbad with hb | hb <;> simp [hb]
    simp [Bumert.Assertion.BeErrorOfType, Bumert.Should, he, hb]
  · intro he
    simp [Bumert.Assertion.BeErrorOfType, Bumert.Should, he]

/-- C8 witness: a concrete leaf error with an untyped nil target hits the
internal-error panic; a non-error captured value with the same target hits
the ordinary assertion failure. -/
theorem c8_witness :
    Bumert.errOf sampleLeafErr = some (GoError.leafErr "mypkg.MyError" "boom")
    ∧ Bumert.Assertion.BeErrorOfType (Bumert.Should sampleLeafErr) GoValue.nilV sampleSite
        = Except.error (GoPanic.rawPanic
          "internal bumert error: BeErrorOfType target must be a non-nil pointer, got <nil>")
    ∧ Bumert.Assertion.BeErrorOfType (Bumert.Should (GoValue.boolV true)) GoValue.nilV sampleSite2
        = Bumert.failAssertion sampleSite2 "should be a non-nil error, but got: true (type bool)" := by
  refine ⟨rfl, ?_, ?_⟩
  · exact (c8_two_error_tiers sampleLeafErr GoValue.nilV sampleSite).1
      (GoError.leafErr "mypkg.MyError" "boom") rfl (Or.inl (by decide))
  · exact (c8_two_error_tiers (GoValue.boolV true) GoValue.nilV sampleSite2).2 rfl

/-- C9 (amended): operands of different concrete numeric kinds are
compared after widening both to float64 — e.g. integer 10 versus float 9.5
passes `BeGreaterThan` — and whenever either operand is non-numeric but
not the untyped nil interface, the predicate raises the fail-fast signal
"requires comparable numeric types" and never reports an ordering result.
For an untyped nil operand the call instead panics inside
`reflect.Value.Type` before any comparison (see the counterexample). -/
theorem c9_amended (v1 v2 : GoValue) (s : CallSite) :
    (Bumert.isNumericValue v1 = true → Bumert.isNumericValue v2 = true →
      goTypeOf v1 ≠ goTypeOf v2 →
      Bumert.Assertion.BeGreaterThan (Bumert.Should v1) v2 s
        = (if gfCmp CmpOp.gt (Bumert.convertToFloat64 v1).1 (Bumert.convertToFloat64 v2).1
            then Except.ok (Bumert.Should v1)
            else Bumert.failAssertion s ("should be greater than " ++ Bumert.fmtValue v2
              ++ ", but got " ++ Bumert.fmtValue v1)))
    ∧ ((Bumert.isNumericValue v1 = false ∨ Bumert.isNumericValue v2 = false) →
      v1 ≠ GoValue.nilV → v2 ≠ GoValue.nilV →
      Bumert.Assertion.BeGreaterThan (Bumert.Should v1) v2 s
        = Bumert.failAssertion s ("BeGreaterThan requires comparable numeric types, got "
            ++ Bumert.fmtType v1 ++ " and " ++ Bumert.fmtType v2)) := by
  constructor
  · intro h1 h2 hty
    have hi1 := Bumert.numeric_not_invalid v1 h1
    have hi2 := Bumert.numeric_not_invalid v2 h2
    have hbe : (goTypeOf v1 == goTypeOf v2) = false := by simp [hty]
    have hok1 : (Bumert.convertToFloat64 v1).2 = true := by
      rcases Bumert.numeric_shape v1 h1 with ⟨k, a, rfl⟩ | ⟨k, a, rfl⟩ | ⟨k, x, rfl⟩ <;> rfl
    have hok2 : (Bumert.convertToFloat64 v2).2 = true := by
      rcases Bumert.numeric_shape v2 h2 with ⟨k, a, rfl⟩ | ⟨k, a, rfl⟩ | ⟨k, x, rfl⟩ <;> rfl
    have hcmp : Bumert.compare v1 v2 CmpOp.gt
        = Except.ok (gfCmp CmpOp.gt (Bumert.convertToFloat64 v1).1
            (Bumert.convertToFloat64 v2).1, true) := by
      simp [Bumert.compare, hi1, hi2, hbe, Bumert.compareCross, h1, h2, hok1, hok2]
    cases hr : gfCmp CmpOp.gt (Bumert.convertToFloat64 v1).1 (Bumert.convertToFloat64 v2).1 <;>
      simp [Bumert.Assertion.BeGreaterThan, Bumert.Should, hcmp, hr]
  · intro hnn hn1 hn2
    have hcmp := Bumert.compare_non_numeric v1 v2 hnn hn1 hn2 CmpOp.gt
    simp [Bumert.Assertion.BeGreaterThan, Bumert.Should, hcmp]

/-- C9 witness: `Should(10).BeGreaterThan(9.5)` passes by widening, and
`Should("10").BeGreaterThan(9)` raises the non-comparable diagnostic. -/
theorem c9_amended_witness :
    Bumert.Assertion.BeGreaterThan (Bumert.Should (GoValue.intV SIntKind.i 10))
      (GoValue.floatV FloatKind.f64 (GoFloat.finite (mkRat 19 2))) sampleSite
      = Except.ok (Bumert.Should (GoValue.intV SIntKind.i 10))
    ∧ Bumert.Assertion.BeGreaterThan (Bumert.Should (GoValue.stringV "10"))
        (GoValue.intV SIntKind.i 9) sampleSite2
      = Bumert.failAssertion sampleSite2
          "BeGreaterThan requires comparable numeric types, got string and int" := by
  constructor
  · have h := (c9_amended (GoValue.intV SIntKind.i 10)
      (GoValue.floatV FloatKind.f64 (GoFloat.finite (mkRat 19 2))) sampleSite).1 rfl rfl (by decide)
    rw [h]
    rfl
  · exact (c9_amended (GoValue.stringV "10") (GoValue.intV SIntKind.i 9) sampleSite2).2
      (Or.inl rfl) (by decide) (by decide)

/-- C9 counterexample: with the untyped nil interface as operand —
a non-numeric operand — `BeGreaterThan` does not raise the fail-fast
"requires comparable numeric types" diagnostic: it raises the reflect
panic from `Value.Type` on the zero `Value`, whose payload contains
neither that message nor the "assertion failed" marker. -/
theorem c9_counterexample :
    Bumert.Assertion.BeGreaterThan (Bumert.Should (GoValue.intV SIntKind.i 10)) GoValue.nilV
        sampleSite
      = Except.error (GoPanic.rawPanic "reflect: call of reflect.Value.Type on zero Value")
    ∧ strContains "reflect: call of reflect.Value.Type on zero Value"
        "requires comparable numeric types" = false
    ∧ strContains "reflect: call of reflect.Value.Type on zero Value" "assertion failed" = false := by
  exact ⟨rfl, rfl, rfl⟩

/-- C7: every fail-fast signal built by `failAssertion` — i.e. every
assertion-failure panic of any predicate method — carries a payload of the
exact shape `"<file>:<line>: assertion failed: <message>"`, where `<file>`
is the last path segment of the failing predicate call's own source file.
The chain-entry `Should` takes no source location at all, so the payload
location can only come from the failing predicate call site. -/
theorem c7_payload_format (c : PredCall) (v : GoValue) (s : CallSite) (p : String)
    (h : Bumert.runPred c (Bumert.Should v) s = Except.error (GoPanic.assertPanic p)) :
    ∃ m, p = Bumert.trimPath s.file ++ ":" ++ toString s.line ++ ": assertion failed: " ++ m := by
  cases c <;>
    simp only [Bumert.runPred, Bumert.Should, Bumert.Assertion.BeNil, Bumert.Assertion.NotBeNil,
      Bumert.Assertion.TrueFn, Bumert.Assertion.BeTrue, Bumert.Assertion.BeFalse,
      Bumert.Assertion.BeEqual, Bumert.Assertion.NotBeEqual, Bumert.Assertion.BeEmpty,
      Bumert.Assertion.NotBeEmpty, Bumert.Assertion.HaveLen, Bumert.Assertion.Contain,
      Bumert.Assertion.NotContain, Bumert.Assertion.ContainSubstring,
      Bumert.Assertion.HavePrefix, Bumert.Assertion.HaveSuffix, Bumert.Assertion.BeZero,
      Bumert.Assertion.NotBeZero, Bumert.Assertion.BeGreaterThan, Bumert.Assertion.BeLessThan,
      Bumert.Assertion.BeGreaterThanOrEqualTo, Bumert.Assertion.BeLessThanOrEqualTo,
      Bumert.Assertion.BeError, Bumert.Assertion.NotBeError, Bumert.Assertion.BeErrorOfType,
      Bumert.Assertion.BeErrorWithMessage, Bumert.failAssertion, Bumert.failAssertionMsg,
      Bumert.getCallerInfo] at h <;>
  repeat' (split at h)
  all_goals (try (simp at h))
  all_goals exact ⟨_, h.symm⟩

/-- C7 witness: a concrete failing `TrueFn` call produces a payload of the
required shape. -/
theorem c7_payload_format_witness :
    ∃ m, Bumert.failAssertionMsg sampleSite "function returned false"
      = Bumert.trimPath sampleSite.file ++ ":" ++ toString sampleSite.line
        ++ ": assertion failed: " ++ m :=
  c7_payload_format (PredCall.trueFn false) GoValue.nilV sampleSite
    (Bumert.failAssertionMsg sampleSite "function returned false") rfl
